import Mathlib

/-!
Verification of the pycmor resource-resolution and metadata layer.

This file gives a shallow embedding of the relevant parts of the pycmor
source (resource_locator.py, global_attributes.py, cmip7_interface.py,
bounds.py, units.py) and proves the frozen claims about them.

Python conventions used throughout the embedding:
- fallible Python code is modelled with `Except PyErr`;
- Python dictionaries are association lists `List (String × PyVal)`;
- Python dynamic values are the inductive `PyVal`;
- filesystem state is an explicit association list from paths to nodes.
-/

namespace Pycmor

/-- Python exception classes that appear in the embedded code. -/
inductive PyErr where
  | valueError (msg : String)
  | keyError (key : String)
  | typeError (msg : String)
  | indexError
  | attributeError (name : String)
  | assertionError
  | isADirectoryError
  | unboundLocalError (name : String)
  | undefinedUnitError (unit : String)
  deriving Repr, DecidableEq

/-- Python dynamic values (the subset that flows through the embedded code). -/
inductive PyVal where
  | str (s : String)
  | int (n : Int)
  | list (xs : List PyVal)
  | dict (kvs : List (String × PyVal))
  | none

namespace PyVal

/-- Python truthiness for the values we model. -/
def truthy : PyVal → Bool
  | .str s => s ≠ ""
  | .int n => n ≠ 0
  | .list xs => !xs.isEmpty
  | .dict kvs => !kvs.isEmpty
  | .none => false

/-- Python `str()` on the values we model (containers rendered approximately;
no embedded getter applies `str()` to a container on the proved paths). -/
def pyStr : PyVal → String
  | .str s => s
  | .int n => toString n
  | .list _ => "[...]"
  | .dict _ => "{...}"
  | .none => "None"

/-- Is this value a Python `str` instance? -/
def isStr : PyVal → Bool
  | .str _ => true
  | _ => false

/-- Python `v is None`. -/
def isNone : PyVal → Bool
  | .none => true
  | _ => false

end PyVal

mutual

/-- Python `==` on the values we model. -/
def pyEq : PyVal → PyVal → Bool
  | .str a, .str b => a == b
  | .int a, .int b => a == b
  | .none, .none => true
  | .list xs, .list ys => pyEqList xs ys
  | .dict a, .dict b => pyEqDict a b
  | _, _ => false

/-- Python `==` on lists of values. -/
def pyEqList : List PyVal → List PyVal → Bool
  | [], [] => true
  | x :: xs, y :: ys => pyEq x y && pyEqList xs ys
  | _, _ => false

/-- Python `==` on dicts of values (our dicts are ordered association
lists, so this is equality of the association lists). -/
def pyEqDict : List (String × PyVal) → List (String × PyVal) → Bool
  | [], [] => true
  | kv :: xs, kw :: ys => kv.1 == kw.1 && pyEq kv.2 kw.2 && pyEqDict xs ys
  | _, _ => false

end

/-- Python `v in xs` for a list. -/
def pyInList (v : PyVal) (xs : List PyVal) : Bool :=
  xs.any fun x => pyEq x v

/-- Python `d.get(key, default)` on a dict modelled as an association list. -/
def dictGet (d : List (String × PyVal)) (key : String) (default : PyVal) : PyVal :=
  match d.lookup key with
  | some v => v
  | Option.none => default

/-- Python `d[key]` (raises `KeyError` when absent). -/
def dictIndex (d : List (String × PyVal)) (key : String) : Except PyErr PyVal :=
  match d.lookup key with
  | some v => .ok v
  | Option.none => .error (.keyError key)

/-- Python `key in d` for a string-keyed dict; a non-string query never
matches a string key. -/
def pyKeyIn (v : PyVal) (d : List (String × PyVal)) : Bool :=
  match v with
  | .str s => (d.lookup s).isSome
  | _ => false

/-- Python `x[k]` where `x` is expected to be a dict and `k` a string value. -/
def pyIndex (x : PyVal) (k : PyVal) : Except PyErr PyVal :=
  match x, k with
  | .dict kvs, .str s => dictIndex kvs s
  | .dict _, _ => .error (.keyError (k.pyStr))
  | _, _ => .error (.typeError "object is not subscriptable")

/-! ## Variant labels (global_attributes.py, `_variant_label_components`)

Both `CMIP6GlobalAttributes._variant_label_components` and
`CMIP7GlobalAttributes._variant_label_components` run the textually identical
regex `r(\d+)i(\d+)p(\d+)f(\d+)$` with `re.match` (anchored at the start; the
`$` matches at the end of the string or just before one trailing newline). -/

/-- The four integer components of a variant label. -/
structure VariantComponents where
  realization_index : Nat
  initialization_index : Nat
  physics_index : Nat
  forcing_index : Nat
  deriving Repr, DecidableEq

/-- Python `int()` applied to a run of decimal digits. -/
def digitsVal (ds : List Char) : Nat :=
  ds.foldl (fun acc c => 10 * acc + (c.toNat - 48)) 0

/-- Match one `<letter>(\d+)` group of the variant-label regex: expect the
leading letter, then a non-empty maximal run of digits. -/
def matchIndexGroup (lead : Char) (cs : List Char) : Option (Nat × List Char) :=
  match cs with
  | [] => Option.none
  | c :: rest =>
    if c = lead then
      let p := rest.span Char.isDigit
      if p.1.isEmpty then Option.none else some (digitsVal p.1, p.2)
    else Option.none

/-- The error raised when the label does not match; the message names the
offending label, mirroring the source message
"label must be of the form r<int>i<int>p<int>f<int>, Got: {label}". -/
def variantLabelError (label : String) : PyErr :=
  .valueError ("label must be of the form r<int>i<int>p<int>f<int>, Got: " ++ label)

/-- Embedding of `_variant_label_components` (shared by the CMIP6 and CMIP7
resolvers): match `r(\d+)i(\d+)p(\d+)f(\d+)$` against the label and convert
each captured group with `int()`; on failure raise `ValueError` naming the
label. -/
def variantLabelComponents (label : String) : Except PyErr VariantComponents :=
  let go : Option VariantComponents :=
    (matchIndexGroup 'r' label.data).bind fun pr =>
    (matchIndexGroup 'i' pr.2).bind fun pi =>
    (matchIndexGroup 'p' pi.2).bind fun pp =>
    (matchIndexGroup 'f' pp.2).bind fun pf =>
    if pf.2 = [] ∨ pf.2 = ['\n'] then some ⟨pr.1, pi.1, pp.1, pf.1⟩ else Option.none
  match go with
  | some c => .ok c
  | Option.none => .error (variantLabelError label)

/-- `get_realization_index`: parse the variant label, return `str(...)` of the
realization component. -/
def get_realization_index (variant_label : String) : Except PyErr String :=
  (variantLabelComponents variant_label).map fun c => toString c.realization_index

/-- `get_initialization_index` on a variant label. -/
def get_initialization_index (variant_label : String) : Except PyErr String :=
  (variantLabelComponents variant_label).map fun c => toString c.initialization_index

/-- `get_physics_index` on a variant label. -/
def get_physics_index (variant_label : String) : Except PyErr String :=
  (variantLabelComponents variant_label).map fun c => toString c.physics_index

/-- `get_forcing_index` on a variant label. -/
def get_forcing_index (variant_label : String) : Except PyErr String :=
  (variantLabelComponents variant_label).map fun c => toString c.forcing_index

/-! ## CMIP7 compound names (cmip7_interface.py) -/

/-- The five components of a CMIP7 compound name, as returned by
`CMIP7Interface.parse_compound_name` (dictionary keys `realm`, `variable`,
`branding`, `frequency`, `region`; `variable` is a reserved word in Lean,
hence the field name `var`). -/
structure CompoundName where
  realm : String
  var : String
  branding : String
  frequency : String
  region : String
  deriving Repr, DecidableEq

/-- Embedding of `CMIP7Interface.parse_compound_name`: split the name on "."
(Python `str.split(".")`, which keeps empty components); exactly 5 parts are
required, otherwise `ValueError` naming the offending name. -/
def parse_compound_name (cmip7_compound_name : String) : Except PyErr CompoundName :=
  let parts := cmip7_compound_name.data.splitOn '.'
  if h5 : parts.length = 5 then
    .ok ⟨⟨parts.get ⟨0, by omega⟩⟩, ⟨parts.get ⟨1, by omega⟩⟩, ⟨parts.get ⟨2, by omega⟩⟩,
         ⟨parts.get ⟨3, by omega⟩⟩, ⟨parts.get ⟨4, by omega⟩⟩⟩
  else
    .error (.valueError ("Invalid CMIP7 compound name: " ++ cmip7_compound_name ++
      ". Expected format: realm.variable.branding.frequency.region"))

/-- Embedding of `CMIP7Interface.build_compound_name`:
the f-string `"{realm}.{variable}.{branding}.{frequency}.{region}"`. -/
def build_compound_name (realm var branding frequency region : String) : String :=
  realm ++ "." ++ var ++ "." ++ branding ++ "." ++ frequency ++ "." ++ region

/-! ## 1-D coordinate bounds (bounds.py, `calculate_bounds_1d`)

The numpy arithmetic is embedded over `ℚ`; `v i` is `values[i]` and the
result list holds the rows of the `(n, 2)` bounds array. -/

/-- Embedding of `calculate_bounds_1d`. For `n ≥ 3` (the general case) the
row `i` is `(lower, upper)` with interior bounds given by midpoints of
adjacent values and the two outer bounds extrapolated, exactly as in the
source (`bounds[1:,0] = midpoints`, `bounds[:-1,1] = midpoints`,
`bounds[0,0] = values[0] - (midpoints[0] - values[0])`,
`bounds[-1,1] = values[-1] + (values[-1] - midpoints[-1])`). -/
def calculate_bounds_1d (values : List ℚ) : List (ℚ × ℚ) :=
  let n := values.length
  let v : Nat → ℚ := fun i => values.getD i 0
  if n = 1 then
    [(v 0 - 1/2, v 0 + 1/2)]
  else if n = 2 then
    let spacing := v 1 - v 0
    [(v 0 - spacing / 2, v 0 + spacing / 2), (v 1 - spacing / 2, v 1 + spacing / 2)]
  else
    let mid : Nat → ℚ := fun j => (v j + v (j + 1)) / 2
    (List.range n).map fun i =>
      ((if i = 0 then v 0 - (mid 0 - v 0) else mid (i - 1)),
       (if i = n - 1 then v (n - 1) + (v (n - 1) - mid (n - 2)) else mid i))

/-! ## Filesystem model and the ResourceLocator priority chain
(resource_locator.py)

Paths are lists of components.  The filesystem is an association list from
paths to nodes; insertion prepends, so a later write to the same path
shadows (overwrites) the old entry.  A directory node records the names
produced by `iterdir()`; a file node records `st_size` and the result of
`json.load` on its content (`none` models a `json.JSONDecodeError`). -/

/-- A filesystem path, as a list of components. -/
abbrev FsPath := List String

/-- Parsed JSON documents (the possible results of `json.load`). -/
inductive JVal where
  | str (s : String)
  | num (n : Int)
  | bool (b : Bool)
  | null
  | arr (xs : List JVal)
  | obj (kvs : List (String × JVal))

/-- A filesystem node. -/
inductive FsNode where
  | dir (entries : List String)
  | file (size : Nat) (json : Option JVal)

/-- Filesystem state. -/
abbrev FS := List (FsPath × FsNode)

/-- Look a path up in the filesystem. -/
def fsLookup (fs : FS) (p : FsPath) : Option FsNode :=
  List.lookup p fs

/-- `Path.exists()`. -/
def fsExists (fs : FS) (p : FsPath) : Bool :=
  (fsLookup fs p).isSome

/-- Write a node at a path (shadowing any previous node there). -/
def fsInsert (fs : FS) (p : FsPath) (n : FsNode) : FS :=
  (p, n) :: fs

/-- `p.mkdir(parents=True, exist_ok=True)`: create every missing prefix of
`p` as an empty directory, outermost first. -/
def mkdirParents (fs : FS) (p : FsPath) : FS :=
  (List.range p.length).foldl
    (fun acc i =>
      if fsExists acc (p.take (i + 1)) then acc
      else fsInsert acc (p.take (i + 1)) (.dir [])) fs

/-- `ResourceLocator._validate_cache`: the path exists, a directory has at
least one entry (`any(cache_path.iterdir())`), a file has positive
`st_size`. -/
def validateCacheBase (fs : FS) (cache_path : FsPath) : Bool :=
  match fsLookup fs cache_path with
  | Option.none => false
  | some (.dir entries) => !entries.isEmpty
  | some (.file size _) => decide (0 < size)

/-- Python `"needle" in haystack` on strings (substring test). -/
def strContains (haystack needle : String) : Bool :=
  (List.range (haystack.data.length + 1)).any fun i =>
    needle.data.isPrefixOf (haystack.data.drop i)

/-- Python `"Compound Name" in data or "Header" in data` on the parsed JSON
document: key membership for a dict, element membership for a list,
substring for a string; any other document type raises `TypeError`
(which the source's `except (json.JSONDecodeError, KeyError)` does not
catch). -/
def jsonHasMetadataKeys (data : JVal) : Except PyErr Bool :=
  match data with
  | .obj kvs => .ok ((List.lookup "Compound Name" kvs).isSome
      || (List.lookup "Header" kvs).isSome)
  | .arr xs =>
    let mem := fun (s : String) => xs.any fun x =>
      match x with | .str t => t == s | _ => false
    .ok (mem "Compound Name" || mem "Header")
  | .str s => .ok (strContains s "Compound Name" || strContains s "Header")
  | _ => .error (.typeError "argument of type is not iterable")

/-- `CMIP7MetadataLocator._validate_cache`: base validation first, then open
the file and `json.load` it — a directory makes `open` raise
`IsADirectoryError`, undecodable content is caught and reported invalid,
and the key test is `jsonHasMetadataKeys`. -/
def validateCacheMetadata (fs : FS) (cache_path : FsPath) : Except PyErr Bool :=
  if !(validateCacheBase fs cache_path) then
    .ok false
  else
    match fsLookup fs cache_path with
    | some (.file _ (some data)) => jsonHasMetadataKeys data
    | some (.file _ Option.none) => .ok false
    | some (.dir _) => .error .isADirectoryError
    | Option.none => .ok false

/-- Which `_validate_cache` override a locator class uses. -/
inductive ValidateKind where
  | base
  | metadataJson

/-- Dispatch `_validate_cache`. -/
def runValidate : ValidateKind → FS → FsPath → Except PyErr Bool
  | .base, fs, p => .ok (validateCacheBase fs p)
  | .metadataJson, fs, p => validateCacheMetadata fs p

/-- Which `_download_from_git` override a locator class uses, together with
the oracle describing the external world (git, subprocesses). -/
inductive DownloadKind where
  /-- `CVLocator._download_from_git` / `TableLocator._download_from_git`:
  shallow clone into a temp dir (external outcome `cloneOk`, cloned entries
  `entries`), then `shutil.copytree` into the cache path — which raises
  `FileExistsError` when the destination already exists; every failure is
  caught and reported as `False`. -/
  | git (cloneOk : Bool) (entries : List String)
  /-- The overrides that never fetch (CMIP7TableLocator,
  CMIP6MetadataLocator, and TableLocator with `GIT_REPO_URL is None`):
  return `False`. -/
  | noRemote
  /-- `CMIP7MetadataLocator._download_from_git`: `mkdir` the parent, run the
  external `export_dreq_lists_json` command (`none`: non-zero exit or
  missing tool, caught and reported `False`; `some (size, json)`: the
  metadata file it wrote, overwriting any previous one), then report
  `metadata_file.exists()`.  The temporary experiments file is written and
  unlinked, with no net effect. -/
  | generate (outcome : Option (Nat × Option JVal))

/-- Dispatch `_download_from_git`, returning its boolean result and the
filesystem after its side effects. -/
def runDownload : DownloadKind → FS → FsPath → Bool × FS
  | .git cloneOk entries, fs, cache_path =>
    if cloneOk then
      if fsExists fs cache_path then (false, fs)
      else (true, fsInsert fs cache_path (.dir entries))
    else (false, fs)
  | .noRemote, fs, _ => (false, fs)
  | .generate outcome, fs, cache_path =>
    let fs1 := mkdirParents fs cache_path.dropLast
    match outcome with
    | Option.none => (false, fs1)
    | some (size, json) =>
      let fs2 := fsInsert fs1 cache_path (.file size json)
      (fsExists fs2 cache_path, fs2)

/-- Whether `_get_cache_path` is the base directory layout or the
`CMIP7MetadataLocator` override appending `metadata.json`. -/
inductive CacheStyle where
  | plain
  | metadataFile

/-- A concrete `ResourceLocator` instance: its identity plus the pieces the
subclasses override. -/
structure Locator where
  resource_name : String
  version : Option String
  user_path : Option FsPath
  cache_base : FsPath
  cacheStyle : CacheStyle
  /-- `REPO_SUBDIR` when the class defines it. -/
  repo_subdir : Option String
  validateKind : ValidateKind
  downloadKind : DownloadKind
  /-- result of `_get_packaged_path()`. -/
  packaged_path : Option FsPath
  /-- the repo-root-resolved `VENDORED_SUBDIR` candidate checked by
  `_get_vendored_path`, or `none` for classes without vendored data. -/
  vendored_candidate : Option FsPath

/-- `_get_cache_path`. -/
def Locator.cachePath (l : Locator) : FsPath :=
  let base := match l.version with
    | some v => l.cache_base ++ [l.resource_name, v]
    | Option.none => l.cache_base ++ [l.resource_name]
  match l.cacheStyle with
  | .plain => base
  | .metadataFile => base ++ ["metadata.json"]

/-- `if hasattr(self, "REPO_SUBDIR") and self.REPO_SUBDIR: cache_path =
cache_path / self.REPO_SUBDIR`. -/
def Locator.withRepoSubdir (l : Locator) (p : FsPath) : FsPath :=
  match l.repo_subdir with
  | some s => if s ≠ "" then p ++ [s] else p
  | Option.none => p

/-- `_get_vendored_path` for the CV/Table locators: the candidate path when
it exists, else `None`. -/
def getVendoredPath (l : Locator) (fs : FS) : Option FsPath :=
  match l.vendored_candidate with
  | some p => if fsExists fs p then some p else Option.none
  | Option.none => Option.none

/-- The observable outcome of one `locate()` call: its return value (or the
exception it raised), the filesystem afterwards, and whether the call
reached the remote tier and invoked `_download_from_git`. -/
structure LocateOutcome where
  result : Except PyErr (Option FsPath)
  fs : FS
  downloadInvoked : Bool

/-- Priority 5 of `locate`: vendored git submodules. -/
def locateTier5 (l : Locator) (fs2 : FS) : LocateOutcome :=
  match getVendoredPath l fs2 with
  | some vp =>
    if fsExists fs2 vp then ⟨.ok (some vp), fs2, true⟩
    else ⟨.ok Option.none, fs2, true⟩
  | Option.none => ⟨.ok Option.none, fs2, true⟩

/-- Priority 4 of `locate`: packaged resources. -/
def locateTier4 (l : Locator) (fs2 : FS) : LocateOutcome :=
  match l.packaged_path with
  | some pp =>
    if fsExists fs2 pp then ⟨.ok (some pp), fs2, true⟩
    else locateTier5 l fs2
  | Option.none => locateTier5 l fs2

/-- Priority 3 of `locate`: remote git (download to cache).  `locate` first
runs `cache_path.parent.mkdir(parents=True, exist_ok=True)`, then calls
`_download_from_git(cache_path)`. -/
def locateTier3 (l : Locator) (fs : FS) : LocateOutcome :=
  if (runDownload l.downloadKind (mkdirParents fs l.cachePath.dropLast) l.cachePath).1 then
    ⟨.ok (some (l.withRepoSubdir l.cachePath)),
     (runDownload l.downloadKind (mkdirParents fs l.cachePath.dropLast) l.cachePath).2,
     true⟩
  else
    locateTier4 l
      (runDownload l.downloadKind (mkdirParents fs l.cachePath.dropLast) l.cachePath).2

/-- Priority 2 of `locate`: the XDG cache (`cache_path.exists() and
self._validate_cache(cache_path)`, short-circuiting), falling through to
priority 3. -/
def locateFromCache (l : Locator) (fs : FS) : LocateOutcome :=
  if fsExists fs l.cachePath then
    match runValidate l.validateKind fs l.cachePath with
    | .error e => ⟨.error e, fs, false⟩
    | .ok true => ⟨.ok (some (l.withRepoSubdir l.cachePath)), fs, false⟩
    | .ok false => locateTier3 l fs
  else locateTier3 l fs

/-- Embedding of `ResourceLocator.locate`: the five-tier priority chain. -/
def locate (l : Locator) (fs : FS) : LocateOutcome :=
  match l.user_path with
  | some up =>
    if fsExists fs up then ⟨.ok (some up), fs, false⟩
    else locateFromCache l fs
  | Option.none => locateFromCache l fs

/-! ## More Python primitives used by the attribute resolvers -/

/-- Python `len()`. -/
def pyLen : PyVal → Except PyErr Nat
  | .list xs => .ok xs.length
  | .dict kvs => .ok kvs.length
  | .str s => .ok s.length
  | _ => .error (.typeError "object has no len")

/-- Python `item in container`. -/
def pyContains (container item : PyVal) : Except PyErr Bool :=
  match container with
  | .list xs => .ok (pyInList item xs)
  | .dict kvs => .ok (pyKeyIn item kvs)
  | .str s =>
    match item with
    | .str t => .ok (strContains s t)
    | _ => .error (.typeError "in str requires str as left operand")
  | _ => .error (.typeError "argument is not iterable")

/-- Python `x[i]` for an integer index on a list. -/
def pyGetIndex (x : PyVal) (i : Nat) : Except PyErr PyVal :=
  match x with
  | .list xs =>
    match xs.get? i with
    | some v => .ok v
    | Option.none => .error .indexError
  | _ => .error (.typeError "object is not subscriptable")

/-- Python `x[k]` with a literal string key. -/
def pyIndexS (x : PyVal) (k : String) : Except PyErr PyVal :=
  pyIndex x (.str k)

/-- Python `x.get(k, default)` where `x` is expected to be a dict. -/
def pyGet (x : PyVal) (k : String) (default : PyVal) : Except PyErr PyVal :=
  match x with
  | .dict kvs => .ok (dictGet kvs k default)
  | _ => .error (.attributeError "get")

/-- Python iteration (`for ... in x`): list elements, dict keys, or the
characters of a string. -/
def pyIter : PyVal → Except PyErr (List PyVal)
  | .list xs => .ok xs
  | .dict kvs => .ok (kvs.map fun kv => .str kv.1)
  | .str s => .ok (s.data.map fun c => .str (String.mk [c]))
  | _ => .error (.typeError "object is not iterable")

/-- Python `" ".join(xs)` (raises `TypeError` on a non-str element). -/
def pyJoinSpace (xs : List PyVal) : Except PyErr PyVal :=
  if xs.all PyVal.isStr then
    .ok (.str (String.intercalate " " (xs.map PyVal.pyStr)))
  else .error (.typeError "sequence item: expected str instance")

/-- Python `s.split()` with no arguments: split on whitespace runs,
dropping empty pieces. -/
def pySplitWhitespace (s : String) : List String :=
  ((s.data.splitOnP fun c => c.isWhitespace).filter fun l => !l.isEmpty).map
    fun l => String.mk l

/-- `_variant_label_components` applied to a dynamic value: `re.match`
raises `TypeError` unless the label is a string. -/
def pyVariantComponents (label : PyVal) : Except PyErr VariantComponents :=
  match label with
  | .str s => variantLabelComponents s
  | _ => .error (.typeError "expected string or bytes-like object")

/-! ## CMIP6 global attributes (global_attributes.py, `CMIP6GlobalAttributes`)

Only the getters the claims are about are embedded.  `drv` is the parsed
data-request variable, accessed through typed attributes; `cv` and
`rule_dict` are Python dicts. -/

/-- The CMIP6 data-request-variable attributes consumed by the embedded
getters. -/
structure CMIP6Drv where
  model_component : String
  table_header_realm : String

/-- A `CMIP6GlobalAttributes` instance. -/
structure CMIP6GlobalAttributes where
  drv : CMIP6Drv
  cv : List (String × PyVal)
  rule_dict : List (String × PyVal)

/-- `CMIP6GlobalAttributes.get_realm`: the rule's `model_component` if
given, else the variable's `model_component`, replaced by the table
header's realm when it contains more than one word. -/
def CMIP6GlobalAttributes.get_realm (g : CMIP6GlobalAttributes) : PyVal :=
  let model_component := dictGet g.rule_dict "model_component" .none
  if model_component.isNone then
    let mc := g.drv.model_component
    if 1 < (pySplitWhitespace mc).length then .str g.drv.table_header_realm
    else .str mc
  else model_component

/-- `CMIP6GlobalAttributes.get_institution_id`: look the candidate list up
as `cv["source_id"][source_id]["institution_id"]`; with more than one
candidate, a truthy rule override is validated against the candidates
(invalid → `ValueError`) and returned, no override → `ValueError`;
otherwise return `institution_ids[0]`. -/
def CMIP6GlobalAttributes.get_institution_id (g : CMIP6GlobalAttributes) :
    Except PyErr PyVal := do
  let source_id ← dictIndex g.rule_dict "source_id"
  let cv_source_id ← pyIndex (← dictIndex g.cv "source_id") source_id
  let institution_ids ← pyIndexS cv_source_id "institution_id"
  let n ← pyLen institution_ids
  if 1 < n then
    let user_institution_id := dictGet g.rule_dict "institution_id" .none
    if user_institution_id.truthy then
      if !(← pyContains institution_ids user_institution_id) then
        Except.error (.valueError ("Institution ID " ++ user_institution_id.pyStr ++
          " is not valid. Allowed values: " ++ institution_ids.pyStr))
      else pure user_institution_id
    else
      Except.error (.valueError ("Multiple institutions are not supported, got: " ++
        institution_ids.pyStr))
  else
    pyGetIndex institution_ids 0

/-- `CMIP6GlobalAttributes.get_nominal_resolution`.  The local variable
`nominal_resolution` is only assigned inside the two key-membership
branches (note the misspelled second key `native_ominal_resolution`
shadowing the first when both are present); reading it with neither key
present raises `UnboundLocalError`. -/
def CMIP6GlobalAttributes.get_nominal_resolution (g : CMIP6GlobalAttributes) :
    Except PyErr PyVal := do
  let source_id ← dictIndex g.rule_dict "source_id"
  let cv_source_id ← pyIndex (← dictIndex g.cv "source_id") source_id
  let model_component := g.get_realm
  let cv_model_component ← pyIndex (← pyIndexS cv_source_id "model_component") model_component
  let nr0 : Option PyVal := Option.none
  let nr1 : Option PyVal ←
    if ← pyContains cv_model_component (.str "native_nominal_resolution") then
      pure (some (← pyIndexS cv_model_component "native_nominal_resolution"))
    else pure nr0
  let nr2 : Option PyVal ←
    if ← pyContains cv_model_component (.str "native_ominal_resolution") then
      pure (some (← pyIndexS cv_model_component "native_ominal_resolution"))
    else pure nr1
  match nr2 with
  | Option.none => Except.error (.unboundLocalError "nominal_resolution")
  | some nominal_resolution =>
    if pyEq nominal_resolution (.str "none") then
      let user := dictGet g.rule_dict "nominal_resolution"
        (dictGet g.rule_dict "resolution" .none)
      if user.truthy then pure user else pure nominal_resolution
    else pure nominal_resolution

/-! ## Unit conversion (units.py)

`xarray.DataArray` data is embedded as rational values plus a string
attribute dict.  The pint unit algebra is external: its operations are an
oracle (`PintOps`), universally quantified in the theorems, while the
control flow of `convert`, `handle_scalar_units` and `handle_chemicals` is
embedded from the source. -/

/-- An `xarray.DataArray`: values and attributes. -/
structure DataArray where
  values : List ℚ
  attrs : List (String × String)

/-- `da.assign_attrs({"units": u})` (the new binding shadows any previous
`units` attribute). -/
def DataArray.assignUnits (da : DataArray) (u : String) : DataArray :=
  { da with attrs := ("units", u) :: da.attrs }

/-- `da.units` (raises `AttributeError` when the attribute is absent). -/
def DataArray.unitsAttr (da : DataArray) : Except PyErr String :=
  match List.lookup "units" da.attrs with
  | some u => .ok u
  | Option.none => .error (.attributeError "units")

/-- The pint operations used by the conversion code, over an abstract type
`Q` of quantified arrays.  `quantify da u` is `da.pint.quantify(u)`;
`convert_to` is `.pint.to`; `dequantify` strips the quantity back to a
plain array (pint writes the canonical `units` attribute, whatever it is);
`uregParse u` is `(ureg(u).magnitude, str(ureg(u).units))`;
`quantityUnits u` is `str(ureg.Quantity(u).units)`;
`chemKnows u` tells whether `ureg(u)` parses without
`UndefinedUnitError`; `elementMW` is the periodic-table lookup. -/
structure PintOps (Q : Type) where
  quantify : DataArray → String → Except PyErr Q
  convert_to : Q → String → Except PyErr Q
  dequantify : Q → DataArray
  assignUnitsQ : Q → String → Q
  scale : Q → ℚ → Q
  divide : Q → ℚ → Q
  uregParse : String → Except PyErr (ℚ × String)
  quantityUnits : String → Except PyErr String
  chemKnows : String → Bool
  elementMW : String → Option ℚ

/-- `\w` of the variant regexes (ASCII portion). -/
def isWordChar (c : Char) : Bool :=
  c.isAlphanum || c = '_'

/-- `re.search(r"mol(?P<symbol>\w+)", s)`: scan for `mol` followed by at
least one word character, returning the captured symbol. -/
def molSearch : List Char → Option String
  | 'm' :: 'o' :: 'l' :: rest =>
    let p := rest.span isWordChar
    if p.1.isEmpty then molSearch ('o' :: 'l' :: rest) else some (String.mk p.1)
  | _ :: rest => molSearch rest
  | [] => Option.none
termination_by cs => cs.length
decreasing_by
  all_goals simp only [List.length_cons]
  all_goals omega

/-- Embedding of `handle_chemicals`: `None` is accepted; if `ureg(s)`
raises `UndefinedUnitError`, search for an embedded `mol<Symbol>`; an
unknown element is a `ValueError`, a known one registers a unit definition
in the global registry (an oracle effect), and no match at all falls out
of the `except` block silently. -/
def handle_chemicals {Q : Type} (ops : PintOps Q) (s : Option String) :
    Except PyErr Unit :=
  match s with
  | Option.none => .ok ()
  | some str =>
    if ops.chemKnows str then .ok ()
    else
      match molSearch str.data with
      | some symbol =>
        match ops.elementMW symbol with
        | some _ => .ok ()
        | Option.none =>
          .error (.valueError ("Unknown chemical element " ++ symbol ++ " in mol" ++ symbol))
      | Option.none => .ok ()

/-- Embedding of `handle_scalar_units`: quantify (retrying with the scale
factored out when pint rejects a scaling factor in `from_unit`, asserting
the error mentions one), convert, and on a scaling factor in the target
convert to the base unit, divide by the magnitude and reattach the unit
string. -/
def handle_scalar_units {Q : Type} (ops : PintOps Q) (da : DataArray)
    (from_unit to_str : String) : Except PyErr DataArray := do
  let new_qda ←
    match ops.quantify da from_unit with
    | .ok q => Except.ok q
    | .error (.valueError msg) =>
      if strContains msg "scaling factor" then do
        let pf ← ops.uregParse from_unit
        let da2 := da.assignUnits pf.2
        let q ← ops.quantify da2 pf.2
        Except.ok (ops.scale q pf.1)
      else Except.error .assertionError
    | .error e => Except.error e
  match ops.convert_to new_qda to_str with
  | .ok q2 => Except.ok (ops.dequantify q2)
  | .error (.valueError msg) =>
    if strContains msg "scaling factor" then do
      let pt ← ops.uregParse to_str
      let q3 ← ops.convert_to new_qda pt.2
      let q4 := ops.divide q3 pt.1
      Except.ok (ops.dequantify (ops.assignUnitsQ q4 pt.2))
    else Except.error .assertionError
  | .error e => Except.error e

/-- `to = to_unit_dimensionless_mapping or to_unit` in `convert` (Python
`or`: a falsy — empty — alias falls back to the nominal target). -/
def effectiveTarget (to_unit : String) (to_unit_dimensionless_mapping : Option String) :
    String :=
  match to_unit_dimensionless_mapping with
  | some a => if a ≠ "" then a else to_unit
  | Option.none => to_unit

/-- The try/except body of `convert` computing `new_da`: direct
quantify-convert-dequantify, falling back to `handle_scalar_units` on a
scaling-factor `ValueError` when the target is not dimensionless, and
re-raising otherwise. -/
def convertCore {Q : Type} (ops : PintOps Q) (da : DataArray)
    (from_unit to_str : String) : Except PyErr DataArray :=
  match (ops.quantify da from_unit).bind
      (fun q => (ops.convert_to q to_str).map ops.dequantify) with
  | .ok d => Except.ok d
  | .error (.valueError msg) =>
    if strContains msg "scaling factor" then
      (ops.quantityUnits to_str).bind fun us =>
        if us ≠ "dimensionless" then handle_scalar_units ops da from_unit to_str
        else Except.error (.valueError msg)
    else Except.error (.valueError msg)
  | .error e => Except.error e

/-- Embedding of `convert`: handle chemicals in both unit strings, run the
conversion on the effective target (`convertCore`), and finally force the
`units` attribute to the nominal `to_unit`
(`if new_da.units != to_unit: new_da = new_da.assign_attrs(...)`). -/
def convert {Q : Type} (ops : PintOps Q) (da : DataArray)
    (from_unit to_unit : String) (to_unit_dimensionless_mapping : Option String) :
    Except PyErr DataArray := do
  handle_chemicals ops (some from_unit)
  handle_chemicals ops (some (effectiveTarget to_unit to_unit_dimensionless_mapping))
  let new_da ← convertCore ops da from_unit
    (effectiveTarget to_unit to_unit_dimensionless_mapping)
  let units ← new_da.unitsAttr
  if units ≠ to_unit then Except.ok (new_da.assignUnits to_unit)
  else Except.ok new_da

/-! ## CMIP7 global attributes (global_attributes.py, `CMIP7GlobalAttributes`)

`drv` is handled by the source through a dict/object case split with
identical lookup semantics; it is embedded as the dict case.  `uuid4` is
the oracle for `uuid.uuid4()` used by `get_tracking_id`. -/

/-- A `CMIP7GlobalAttributes` instance. -/
structure CMIP7GlobalAttributes where
  drv : List (String × PyVal)
  cv : List (String × PyVal)
  rule_dict : List (String × PyVal)
  uuid4 : String

namespace CMIP7GlobalAttributes

/-- `get_variant_label`. -/
def get_variant_label (g : CMIP7GlobalAttributes) : Except PyErr PyVal :=
  dictIndex g.rule_dict "variant_label"

/-- `get_physics_index`: `str(...)` of the parsed physics component. -/
def get_physics_index (g : CMIP7GlobalAttributes) : Except PyErr PyVal := do
  let components ← pyVariantComponents (← g.get_variant_label)
  pure (.str (toString components.physics_index))

/-- `get_forcing_index`. -/
def get_forcing_index (g : CMIP7GlobalAttributes) : Except PyErr PyVal := do
  let components ← pyVariantComponents (← g.get_variant_label)
  pure (.str (toString components.forcing_index))

/-- `get_initialization_index`. -/
def get_initialization_index (g : CMIP7GlobalAttributes) : Except PyErr PyVal := do
  let components ← pyVariantComponents (← g.get_variant_label)
  pure (.str (toString components.initialization_index))

/-- `get_realization_index`. -/
def get_realization_index (g : CMIP7GlobalAttributes) : Except PyErr PyVal := do
  let components ← pyVariantComponents (← g.get_variant_label)
  pure (.str (toString components.realization_index))

/-- `get_source_id`. -/
def get_source_id (g : CMIP7GlobalAttributes) : Except PyErr PyVal :=
  dictIndex g.rule_dict "source_id"

/-- `get_institution_id` (CMIP7: taken from the rule). -/
def get_institution_id (g : CMIP7GlobalAttributes) : Except PyErr PyVal :=
  dictIndex g.rule_dict "institution_id"

/-- `get_institution`: user-provided name, falling back to the id. -/
def get_institution (g : CMIP7GlobalAttributes) : Except PyErr PyVal := do
  let user_institution := dictGet g.rule_dict "institution" .none
  if user_institution.truthy then pure user_institution
  else g.get_institution_id

/-- `get_realm` (CMIP7): the variable metadata's `modeling_realm`, falling
back to the rule's `realm` / `model_component`. -/
def get_realm (g : CMIP7GlobalAttributes) : Except PyErr PyVal := do
  let realm0 := dictGet g.drv "modeling_realm" .none
  let realm1 :=
    if realm0.isNone then
      dictGet g.rule_dict "realm" (dictGet g.rule_dict "model_component" .none)
    else realm0
  if realm1.isNone then
    Except.error (.valueError "Realm/modeling_realm not found in variable metadata or rule_dict")
  else pure realm1

/-- `get_source` (CMIP7): user-provided description, else constructed from
realm / release year / source id. -/
def get_source (g : CMIP7GlobalAttributes) : Except PyErr PyVal := do
  let user_source := dictGet g.rule_dict "source" .none
  if user_source.truthy then pure user_source
  else do
    let source_id ← g.get_source_id
    let realm ← g.get_realm
    let release_year := dictGet g.rule_dict "release_year" .none
    if release_year.truthy then
      pure (.str (realm.pyStr ++ " (" ++ release_year.pyStr ++ ")"))
    else
      pure (.str (source_id.pyStr ++ " " ++ realm.pyStr))

/-- `get_grid_label`. -/
def get_grid_label (g : CMIP7GlobalAttributes) : Except PyErr PyVal :=
  dictIndex g.rule_dict "grid_label"

/-- `get_grid` (CMIP7): user-provided description or `"none"`. -/
def get_grid (g : CMIP7GlobalAttributes) : Except PyErr PyVal := do
  let user_grid := dictGet g.rule_dict "grid" (dictGet g.rule_dict "description" .none)
  if user_grid.truthy then pure user_grid else pure (.str "none")

/-- `get_nominal_resolution` (CMIP7): user-provided value or `"none"`. -/
def get_nominal_resolution (g : CMIP7GlobalAttributes) : Except PyErr PyVal := do
  let user_resolution := dictGet g.rule_dict "nominal_resolution"
    (dictGet g.rule_dict "resolution" .none)
  if user_resolution.truthy then pure user_resolution else pure (.str "none")

/-- The constructed CMIP7 license text (the source's long f-string). -/
def cmip7LicenseText (institution_id : String) : String :=
  "CMIP7 model data produced by " ++ institution_id ++ " is licensed under " ++
  "a Creative Commons Attribution 4.0 International License " ++
  "(https://creativecommons.org/licenses/by/4.0/). " ++
  "Consult https://pcmdi.llnl.gov/CMIP7/TermsOfUse for terms of use " ++
  "governing CMIP7 output, including citation requirements and proper " ++
  "acknowledgment. The data producers and data providers make no warranty, " ++
  "either express or implied, including, but not limited to, warranties of " ++
  "merchantability and fitness for a particular purpose. All liabilities " ++
  "arising from the supply of the information (including any liability " ++
  "arising in negligence) are excluded to the fullest extent permitted by law."

/-- The default CMIP7 license text. -/
def cmip7DefaultLicense (institution_id : String) : String :=
  "CMIP7 model data produced by " ++ institution_id ++ " is licensed under " ++
  "a Creative Commons Attribution 4.0 International License " ++
  "(https://creativecommons.org/licenses/by/4.0/)."

/-- `get_license` (CMIP7). -/
def get_license (g : CMIP7GlobalAttributes) : Except PyErr PyVal := do
  let cvLicenseListNonEmpty : Bool :=
    match List.lookup "license" g.cv with
    | some v =>
      v.truthy && (match v with | .list xs => !xs.isEmpty | _ => false)
    | Option.none => false
  if cvLicenseListNonEmpty then
    let user_license := dictGet g.rule_dict "license" .none
    if user_license.truthy then pure user_license
    else do
      let institution_id ← g.get_institution_id
      pure (.str (cmip7LicenseText institution_id.pyStr))
  else
    let user_license := dictGet g.rule_dict "license" .none
    if user_license.truthy then pure user_license
    else do
      let institution_id ← g.get_institution_id
      pure (.str (cmip7DefaultLicense institution_id.pyStr))

/-- `get_experiment_id`. -/
def get_experiment_id (g : CMIP7GlobalAttributes) : Except PyErr PyVal :=
  dictIndex g.rule_dict "experiment_id"

/-- `get_experiment` (CMIP7): the experiment entry's description when the
CV has one, else the rule's value or the id itself. -/
def get_experiment (g : CMIP7GlobalAttributes) : Except PyErr PyVal := do
  let experiment_id ← g.get_experiment_id
  if (List.lookup "experiment" g.cv).isSome then
    let expMap ← dictIndex g.cv "experiment"
    if ← pyContains expMap experiment_id then
      let exp_data ← pyIndex expMap experiment_id
      pyGet exp_data "description" experiment_id
    else
      pure (dictGet g.rule_dict "experiment" experiment_id)
  else
    pure (dictGet g.rule_dict "experiment" experiment_id)

/-- `get_activity_id` (CMIP7): from the experiment entry's `activity` list;
with several candidates a provided override is validated against them and
unresolved ambiguity is a `ValueError`; an absent CV entry falls back to
the rule's `activity_id`. -/
def get_activity_id (g : CMIP7GlobalAttributes) : Except PyErr PyVal := do
  let experiment_id ← g.get_experiment_id
  let fallback : Except PyErr PyVal :=
    let user_activity_id := dictGet g.rule_dict "activity_id" .none
    if user_activity_id.truthy then pure user_activity_id
    else Except.error (.valueError
      ("Could not determine activity_id for experiment " ++ experiment_id.pyStr))
  if (List.lookup "experiment" g.cv).isSome then
    let expMap ← dictIndex g.cv "experiment"
    if ← pyContains expMap experiment_id then
      let exp_data ← pyIndex expMap experiment_id
      let activities ← pyGet exp_data "activity" (.list [])
      let n ← pyLen activities
      if 1 < n then
        let user_activity_id := dictGet g.rule_dict "activity_id" .none
        if user_activity_id.truthy then
          if !(← pyContains activities user_activity_id) then
            Except.error (.valueError ("Activity ID " ++ user_activity_id.pyStr ++
              " is not valid. Allowed values: " ++ activities.pyStr))
          else pure user_activity_id
        else
          Except.error (.valueError
            ("Multiple activities are not supported, got: " ++ activities.pyStr))
      else if n = 1 then
        pyGetIndex activities 0
      else fallback
    else fallback
  else fallback

/-- `get_sub_experiment_id` (CMIP7). -/
def get_sub_experiment_id (g : CMIP7GlobalAttributes) : Except PyErr PyVal := do
  let experiment_id ← g.get_experiment_id
  if (List.lookup "experiment" g.cv).isSome then
    let expMap ← dictIndex g.cv "experiment"
    if ← pyContains expMap experiment_id then
      let exp_data ← pyIndex expMap experiment_id
      let dflt ← pyGet exp_data "sub_experiment_id" (.list [.str "none"])
      let sub_exp ← pyGet exp_data "sub-experiment" dflt
      match sub_exp with
      | .list xs => pyJoinSpace xs
      | v => pure (.str v.pyStr)
    else
      pure (dictGet g.rule_dict "sub_experiment_id" (.str "none"))
  else
    pure (dictGet g.rule_dict "sub_experiment_id" (.str "none"))

/-- `get_sub_experiment`: `"none"` or the first whitespace-separated
sub-experiment. -/
def get_sub_experiment (g : CMIP7GlobalAttributes) : Except PyErr PyVal := do
  let sub_experiment_id ← g.get_sub_experiment_id
  if pyEq sub_experiment_id (.str "none") then pure (.str "none")
  else
    match sub_experiment_id with
    | .str s =>
      match pySplitWhitespace s with
      | x :: _ => pure (.str x)
      | [] => Except.error .indexError
    | _ => Except.error (.attributeError "split")

/-- `get_source_type` (CMIP7): realm ids joined from the experiment entry's
`model-realms`, else the rule's `source_type`, else `"AOGCM"`. -/
def get_source_type (g : CMIP7GlobalAttributes) : Except PyErr PyVal := do
  let experiment_id ← g.get_experiment_id
  let fallback : Except PyErr PyVal :=
    let user_source_type := dictGet g.rule_dict "source_type" .none
    if user_source_type.truthy then pure user_source_type
    else pure (.str "AOGCM")
  if (List.lookup "experiment" g.cv).isSome then
    let expMap ← dictIndex g.cv "experiment"
    if ← pyContains expMap experiment_id then
      let exp_data ← pyIndex expMap experiment_id
      let model_realms ← pyGet exp_data "model-realms" (.list [])
      match model_realms with
      | .list realms =>
        let realm_ids := realms.foldl (fun acc r =>
          match r with
          | .dict kvs =>
            let realm_id := dictGet kvs "id" (.str "")
            if realm_id.truthy then acc ++ [realm_id] else acc
          | other => acc ++ [.str other.pyStr]) []
        if !realm_ids.isEmpty then pyJoinSpace realm_ids else fallback
      | _ => fallback
    else fallback
  else fallback

/-- `realm_map.get(component, component[0].upper())` of `get_table_id`
(the default is evaluated eagerly, so an empty component is always an
`IndexError`). -/
def realmLetter (component : String) : Except PyErr String :=
  match component.data with
  | [] => .error .indexError
  | c :: _ =>
    .ok (match component with
      | "atmos" => "A"
      | "ocean" => "O"
      | "ocn" => "O"
      | "ocnBgchem" => "O"
      | "seaIce" => "SI"
      | "land" => "L"
      | "landIce" => "LI"
      | _ => String.mk [c.toUpper])

/-- `get_table_id` (CMIP7): the variable's `cmip6_table`, else the rule's
`table_id`, else synthesis from a 5-part compound name, else
`ValueError`. -/
def get_table_id (g : CMIP7GlobalAttributes) : Except PyErr PyVal := do
  let t0 := dictGet g.drv "cmip6_table" .none
  let t1 := if t0.isNone then dictGet g.rule_dict "table_id" .none else t0
  let t2 ←
    if t1.isNone then
      let compound_name := dictGet g.rule_dict "compound_name" .none
      if compound_name.truthy then
        match compound_name with
        | .str s =>
          let parts := (s.data.splitOn '.').map fun l => String.mk l
          if 5 ≤ parts.length then do
            let component := (parts.get? 0).getD ""
            let frequency := (parts.get? 3).getD ""
            let realm_letter ← realmLetter component
            pure (PyVal.str (realm_letter ++ frequency))
          else pure t1
        | _ => Except.error (.attributeError "split")
      else pure t1
    else pure t1
  if t2.isNone then
    Except.error (.valueError "table_id not found in variable metadata or rule_dict")
  else pure t2

/-- `get_mip_era` (CMIP7). -/
def get_mip_era (g : CMIP7GlobalAttributes) : Except PyErr PyVal := do
  match List.lookup "mip-era" g.cv with
  | some (.list (x :: _)) => pure x
  | some _ => pure (dictGet g.rule_dict "mip_era" (.str "CMIP7"))
  | Option.none => pure (dictGet g.rule_dict "mip_era" (.str "CMIP7"))

/-- `get_frequency` (CMIP7): from the variable metadata, else the rule. -/
def get_frequency (g : CMIP7GlobalAttributes) : Except PyErr PyVal := do
  let f0 := dictGet g.drv "frequency" .none
  let f1 := if f0.isNone then dictGet g.rule_dict "frequency" .none else f0
  if f1.isNone then
    Except.error (.valueError "frequency not found in variable metadata or rule")
  else pure f1

/-- `get_Conventions` (CMIP7). -/
def get_Conventions (g : CMIP7GlobalAttributes) : Except PyErr PyVal :=
  pure (dictGet g.rule_dict "Conventions" (.str "CF-1.10 CMIP-7.0"))

/-- `get_product` (CMIP7). -/
def get_product (g : CMIP7GlobalAttributes) : Except PyErr PyVal := do
  match List.lookup "product" g.cv with
  | some (.list (x :: _)) => pure x
  | some _ => pure (dictGet g.rule_dict "product" (.str "model-output"))
  | Option.none => pure (dictGet g.rule_dict "product" (.str "model-output"))

/-- `get_data_specs_version` (CMIP7). -/
def get_data_specs_version (g : CMIP7GlobalAttributes) : Except PyErr PyVal := do
  let version := dictGet g.drv "dreq content version" .none
  if version.truthy then pure (.str version.pyStr)
  else pure (dictGet g.rule_dict "data_specs_version" (.str "1.0.0"))

/-- `get_creation_date`. -/
def get_creation_date (g : CMIP7GlobalAttributes) : Except PyErr PyVal :=
  dictIndex g.rule_dict "creation_date"

/-- `get_tracking_id`: `"hdl:21.14100/" + str(uuid.uuid4())` (the uuid is
the oracle carried by the instance). -/
def get_tracking_id (g : CMIP7GlobalAttributes) : Except PyErr PyVal :=
  pure (.str ("hdl:21.14100/" ++ g.uuid4))

/-- `get_variable_id`. -/
def get_variable_id (g : CMIP7GlobalAttributes) : Except PyErr PyVal :=
  dictIndex g.rule_dict "cmor_variable"

/-- `get_further_info_url`. -/
def get_further_info_url (g : CMIP7GlobalAttributes) : Except PyErr PyVal := do
  let mip_era ← g.get_mip_era
  let institution_id ← g.get_institution_id
  let source_id ← g.get_source_id
  let experiment_id ← g.get_experiment_id
  let sub_experiment_id ← g.get_sub_experiment_id
  let variant_label ← g.get_variant_label
  pure (.str ("https://furtherinfo.es-doc.org/" ++ mip_era.pyStr ++ "." ++
    institution_id.pyStr ++ "." ++ source_id.pyStr ++ "." ++ experiment_id.pyStr ++
    "." ++ sub_experiment_id.pyStr ++ "." ++ variant_label.pyStr))

/-- The fallback required-attribute list hard-coded in
`CMIP7GlobalAttributes.required_global_attributes`. -/
def cmip7FallbackRequired : List String :=
  ["Conventions", "activity_id", "creation_date", "data_specs_version",
   "experiment", "experiment_id", "forcing_index", "frequency",
   "further_info_url", "grid", "grid_label", "initialization_index",
   "institution", "institution_id", "license", "mip_era",
   "nominal_resolution", "physics_index", "product", "realization_index",
   "realm", "source", "source_id", "source_type", "sub_experiment",
   "sub_experiment_id", "table_id", "tracking_id", "variable_id",
   "variant_label"]

/-- `required_global_attributes` (CMIP7): the CV's list when present and
truthy, else the CMIP6-compatible fallback list. -/
def required_global_attributes (g : CMIP7GlobalAttributes) : PyVal :=
  match List.lookup "required_global_attributes" g.cv with
  | some v => if v.truthy then v else .list (cmip7FallbackRequired.map .str)
  | Option.none => .list (cmip7FallbackRequired.map .str)

/-- `getattr(self, name)` restricted to the getter methods of the class
(any other name raises `AttributeError`). -/
def callGetter (g : CMIP7GlobalAttributes) (name : String) : Except PyErr PyVal :=
  match name with
  | "get_Conventions" => g.get_Conventions
  | "get_activity_id" => g.get_activity_id
  | "get_creation_date" => g.get_creation_date
  | "get_data_specs_version" => g.get_data_specs_version
  | "get_experiment" => g.get_experiment
  | "get_experiment_id" => g.get_experiment_id
  | "get_forcing_index" => g.get_forcing_index
  | "get_frequency" => g.get_frequency
  | "get_further_info_url" => g.get_further_info_url
  | "get_grid" => g.get_grid
  | "get_grid_label" => g.get_grid_label
  | "get_initialization_index" => g.get_initialization_index
  | "get_institution" => g.get_institution
  | "get_institution_id" => g.get_institution_id
  | "get_license" => g.get_license
  | "get_mip_era" => g.get_mip_era
  | "get_nominal_resolution" => g.get_nominal_resolution
  | "get_physics_index" => g.get_physics_index
  | "get_product" => g.get_product
  | "get_realization_index" => g.get_realization_index
  | "get_realm" => g.get_realm
  | "get_source" => g.get_source
  | "get_source_id" => g.get_source_id
  | "get_source_type" => g.get_source_type
  | "get_sub_experiment" => g.get_sub_experiment
  | "get_sub_experiment_id" => g.get_sub_experiment_id
  | "get_table_id" => g.get_table_id
  | "get_tracking_id" => g.get_tracking_id
  | "get_variable_id" => g.get_variable_id
  | "get_variant_label" => g.get_variant_label
  | other => .error (.attributeError other)

/-- Embedding of `CMIP7GlobalAttributes.global_attributes`: iterate the
required-attribute list, dispatch `getattr(self, f"get_{key}")`, and
collect `key → value` in order. -/
def global_attributes (g : CMIP7GlobalAttributes) :
    Except PyErr (List (PyVal × PyVal)) := do
  let keys ← pyIter g.required_global_attributes
  keys.foldlM (fun acc key => do
    let v ← g.callGetter ("get_" ++ key.pyStr)
    pure (acc ++ [(key, v)])) []

end CMIP7GlobalAttributes

/-! ## Support lemmas -/

lemma takeWhile_digits_append (ds rest : List Char)
    (hds : ∀ c ∈ ds, c.isDigit = true)
    (hrest : ∀ c, rest.head? = some c → c.isDigit = false) :
    (ds ++ rest).takeWhile Char.isDigit = ds := by
  induction ds with
  | nil =>
    cases rest with
    | nil => rfl
    | cons r t =>
      simp only [List.nil_append, List.takeWhile_cons]
      rw [hrest r rfl]
      simp
  | cons d ds ih =>
    simp only [List.cons_append, List.takeWhile_cons]
    rw [hds d (by simp)]
    simp [ih fun c hc => hds c (by simp [hc])]

lemma dropWhile_digits_append (ds rest : List Char)
    (hds : ∀ c ∈ ds, c.isDigit = true)
    (hrest : ∀ c, rest.head? = some c → c.isDigit = false) :
    (ds ++ rest).dropWhile Char.isDigit = rest := by
  induction ds with
  | nil =>
    cases rest with
    | nil => rfl
    | cons r t =>
      simp only [List.nil_append, List.dropWhile_cons]
      rw [hrest r rfl]
      simp
  | cons d ds ih =>
    simp only [List.cons_append, List.dropWhile_cons]
    rw [hds d (by simp)]
    simp [ih fun c hc => hds c (by simp [hc])]

lemma span_digits_append (ds rest : List Char)
    (hds : ∀ c ∈ ds, c.isDigit = true)
    (hrest : ∀ c, rest.head? = some c → c.isDigit = false) :
    (ds ++ rest).span Char.isDigit = (ds, rest) := by
  rw [List.span_eq_take_drop,
    takeWhile_digits_append ds rest hds hrest,
    dropWhile_digits_append ds rest hds hrest]

lemma matchIndexGroup_append (lead : Char) (ds rest : List Char)
    (hne : ds ≠ [])
    (hds : ∀ c ∈ ds, c.isDigit = true)
    (hrest : ∀ c, rest.head? = some c → c.isDigit = false) :
    matchIndexGroup lead (lead :: (ds ++ rest)) = some (digitsVal ds, rest) := by
  simp only [matchIndexGroup, if_pos rfl, span_digits_append ds rest hds hrest]
  simp [List.isEmpty_iff, hne]

/-- Each of the four `<letter>(\d+)` leads of the regex is not a digit. -/
lemma lead_not_digit : ∀ c ∈ ['r', 'i', 'p', 'f'], c.isDigit = false := by decide

/-! ## C5 -/

/-- C5.  Both `_variant_label_components` implementations decompose any
label of the exact shape `r<digits>i<digits>p<digits>f<digits>` into the
four integer components (with the getters returning their decimal string
forms, all `1` for `"r1i1p1f1"`), and raise a `ValueError` naming the
offending label on any non-matching input such as `"invalid"`. -/
theorem c5_variant_label_decomposition :
    (∀ ds1 ds2 ds3 ds4 : List Char,
      ds1 ≠ [] → ds2 ≠ [] → ds3 ≠ [] → ds4 ≠ [] →
      (∀ c ∈ ds1, c.isDigit = true) → (∀ c ∈ ds2, c.isDigit = true) →
      (∀ c ∈ ds3, c.isDigit = true) → (∀ c ∈ ds4, c.isDigit = true) →
      variantLabelComponents
          ⟨'r' :: (ds1 ++ 'i' :: (ds2 ++ 'p' :: (ds3 ++ 'f' :: ds4)))⟩
        = .ok ⟨digitsVal ds1, digitsVal ds2, digitsVal ds3, digitsVal ds4⟩ ∧
      get_realization_index
          ⟨'r' :: (ds1 ++ 'i' :: (ds2 ++ 'p' :: (ds3 ++ 'f' :: ds4)))⟩
        = .ok (toString (digitsVal ds1)) ∧
      get_initialization_index
          ⟨'r' :: (ds1 ++ 'i' :: (ds2 ++ 'p' :: (ds3 ++ 'f' :: ds4)))⟩
        = .ok (toString (digitsVal ds2)) ∧
      get_physics_index
          ⟨'r' :: (ds1 ++ 'i' :: (ds2 ++ 'p' :: (ds3 ++ 'f' :: ds4)))⟩
        = .ok (toString (digitsVal ds3)) ∧
      get_forcing_index
          ⟨'r' :: (ds1 ++ 'i' :: (ds2 ++ 'p' :: (ds3 ++ 'f' :: ds4)))⟩
        = .ok (toString (digitsVal ds4)))
    ∧ variantLabelComponents "r1i1p1f1" = .ok ⟨1, 1, 1, 1⟩
    ∧ get_realization_index "r1i1p1f1" = .ok "1"
    ∧ get_initialization_index "r1i1p1f1" = .ok "1"
    ∧ get_physics_index "r1i1p1f1" = .ok "1"
    ∧ get_forcing_index "r1i1p1f1" = .ok "1"
    ∧ variantLabelComponents "invalid" = .error (variantLabelError "invalid") := by
  refine ⟨?_, rfl, rfl, rfl, rfl, rfl, rfl⟩
  intro ds1 ds2 ds3 ds4 h1 h2 h3 h4 hd1 hd2 hd3 hd4
  have key : variantLabelComponents
      ⟨'r' :: (ds1 ++ 'i' :: (ds2 ++ 'p' :: (ds3 ++ 'f' :: ds4)))⟩
      = .ok ⟨digitsVal ds1, digitsVal ds2, digitsVal ds3, digitsVal ds4⟩ := by
    unfold variantLabelComponents
    rw [show (String.mk ('r' :: (ds1 ++ 'i' :: (ds2 ++ 'p' :: (ds3 ++ 'f' :: ds4))))).data
        = 'r' :: (ds1 ++ 'i' :: (ds2 ++ 'p' :: (ds3 ++ 'f' :: ds4))) from rfl]
    rw [matchIndexGroup_append 'r' ds1 _ h1 hd1
      (by intro c hc; simp at hc; subst hc; decide)]
    simp only [Option.bind_eq_bind, Option.some_bind]
    rw [matchIndexGroup_append 'i' ds2 _ h2 hd2
      (by intro c hc; simp at hc; subst hc; decide)]
    simp only [Option.some_bind]
    rw [matchIndexGroup_append 'p' ds3 _ h3 hd3
      (by intro c hc; simp at hc; subst hc; decide)]
    simp only [Option.some_bind]
    rw [show ('f' :: ds4) = 'f' :: (ds4 ++ []) by simp]
    rw [matchIndexGroup_append 'f' ds4 [] h4 hd4 (by intro c hc; simp at hc)]
    simp
  refine ⟨key, ?_, ?_, ?_, ?_⟩ <;>
    simp only [get_realization_index, get_initialization_index, get_physics_index,
      get_forcing_index, key] <;> rfl

lemma exists_five_of_length_eq {α : Type} {l : List α} (h : l.length = 5) :
    ∃ a b c d e, l = [a, b, c, d, e] := by
  rcases l with _|⟨a, _|⟨b, _|⟨c, _|⟨d, _|⟨e, _|⟨f, t⟩⟩⟩⟩⟩⟩
  · simp at h
  · simp at h
  · simp at h
  · simp at h
  · simp at h
  · exact ⟨a, b, c, d, e, rfl⟩
  · simp at h

/-! ## C7 -/

/-- C7.  `parse_compound_name` splits on "." and requires exactly 5 parts
(otherwise `ValueError`); `build_compound_name` joins the 5 components with
".", so the round trip `build_compound_name(**parse_compound_name(x)) == x`
holds for every name whose dot-split has exactly 5 (non-empty)
components. -/
theorem c7_compound_name_roundtrip :
    (∀ s : String, (s.data.splitOn '.').length = 5 →
      (∀ part ∈ s.data.splitOn '.', part ≠ []) →
      ∃ p : CompoundName, parse_compound_name s = .ok p ∧
        build_compound_name p.realm p.var p.branding p.frequency p.region = s)
    ∧ (∀ s : String, (s.data.splitOn '.').length ≠ 5 →
      ∃ msg, parse_compound_name s = .error (.valueError msg)) := by
  constructor
  · intro s h5 _hne
    obtain ⟨a, b, c, d, e, hsp⟩ := exists_five_of_length_eq h5
    have hparse : parse_compound_name s = .ok ⟨⟨a⟩, ⟨b⟩, ⟨c⟩, ⟨d⟩, ⟨e⟩⟩ := by
      simp [parse_compound_name, hsp]
    refine ⟨⟨⟨a⟩, ⟨b⟩, ⟨c⟩, ⟨d⟩, ⟨e⟩⟩, hparse, ?_⟩
    have hjoin : ['.'].intercalate (s.data.splitOn '.') = s.data :=
      List.intercalate_splitOn s.data '.'
    rw [hsp] at hjoin
    have hdata : (build_compound_name ⟨a⟩ ⟨b⟩ ⟨c⟩ ⟨d⟩ ⟨e⟩).data
        = ['.'].intercalate [a, b, c, d, e] := by
      simp [build_compound_name, List.intercalate, String.data_append]
    cases s with
    | mk sdata =>
      apply congrArg String.mk
      rw [show (String.mk sdata).data = sdata from rfl] at hjoin
      calc (build_compound_name ⟨a⟩ ⟨b⟩ ⟨c⟩ ⟨d⟩ ⟨e⟩).data
          = ['.'].intercalate [a, b, c, d, e] := hdata
        _ = sdata := hjoin
  · intro s hne
    unfold parse_compound_name
    rw [dif_neg hne]
    exact ⟨_, rfl⟩

/-! ## C9 -/

/-- C9.  For a coordinate list with at least 3 monotonically ordered
points, the bounds computed by `calculate_bounds_1d` are exactly
continuous: the upper bound of row `i` equals the lower bound of row
`i + 1` (both are the midpoint between `values[i]` and `values[i+1]`). -/
theorem c9_bounds_continuity (values : List ℚ) (h3 : 3 ≤ values.length)
    (_hmono : values.Chain' (· ≤ ·) ∨ values.Chain' (· ≥ ·))
    (i : Nat) (hi : i + 1 < values.length) :
    ((calculate_bounds_1d values).getD i (0, 0)).2
      = ((calculate_bounds_1d values).getD (i + 1) (0, 0)).1 := by
  unfold calculate_bounds_1d
  have hn1 : ¬ values.length = 1 := by omega
  have hn2 : ¬ values.length = 2 := by omega
  simp only [hn1, hn2, if_false, reduceIte]
  have hget : ∀ (j : Nat), j < values.length → ∀ (f : Nat → ℚ × ℚ),
      (((List.range values.length).map f).getD j (0, 0)) = f j := by
    intro j hj f
    rw [List.getD_eq_getElem?_getD, List.getElem?_map, List.getElem?_range hj]
    rfl
  rw [hget i (by omega) _, hget (i + 1) hi _]
  have hine : ¬ i = values.length - 1 := by omega
  have hi1ne : ¬ i + 1 = 0 := by omega
  simp only [hine, hi1ne, if_false, reduceIte, Nat.add_sub_cancel]

lemma except_bind_ok {ε α β : Type} (a : α) (f : α → Except ε β) :
    (Except.ok a >>= f) = f a := rfl

lemma except_bind_error {ε α β : Type} (e : ε) (f : α → Except ε β) :
    ((Except.error e : Except ε α) >>= f) = Except.error e := rfl

lemma except_pure {ε α : Type} (a : α) : (pure a : Except ε α) = Except.ok a := rfl

lemma pyInList_map_str (o : String) (ids : List String) :
    pyInList (.str o) (ids.map PyVal.str) = ids.any (fun x => x == o) := by
  induction ids with
  | nil => rfl
  | cons x t ih =>
    simp only [pyInList, List.map_cons, List.any_cons] at ih ⊢
    rw [← ih]
    simp [pyEq]

/-! ## C4 -/

/-- Fixture for the institution-resolution claim: a CV whose `source_id`
entry for `"FIX-ESM"` lists the given institution candidates, and a rule
selecting that source, with an optional `institution_id` override. -/
def institutionFixture (ids : List String) (override : Option String) :
    CMIP6GlobalAttributes :=
  { drv := ⟨"ocean", "ocean"⟩,
    cv := [("source_id", .dict [("FIX-ESM",
      .dict [("institution_id", .list (ids.map .str))])])],
    rule_dict := ("source_id", .str "FIX-ESM") ::
      (match override with
       | some o => [("institution_id", PyVal.str o)]
       | Option.none => []) }

/-- C4.  `CMIP6GlobalAttributes.get_institution_id`: with more than one CV
candidate and no rule override it raises; a (non-empty) override equal to
one of the candidates is returned exactly; an override not among the
candidates raises; with exactly one candidate that candidate is returned
(so an unresolved multi-candidate ambiguity is never resolved by silently
picking the first candidate). -/
theorem c4_institution_ambiguity (ids : List String) :
    (1 < ids.length →
      ∃ msg, (institutionFixture ids Option.none).get_institution_id
        = .error (.valueError msg))
    ∧ (∀ o : String, 1 < ids.length → o ∈ ids → o ≠ "" →
      (institutionFixture ids (some o)).get_institution_id = .ok (.str o))
    ∧ (∀ o : String, 1 < ids.length → o ∉ ids → o ≠ "" →
      ∃ msg, (institutionFixture ids (some o)).get_institution_id
        = .error (.valueError msg))
    ∧ (∀ x : String, ids = [x] → ∀ ov,
      (institutionFixture ids ov).get_institution_id = .ok (.str x)) := by
  refine ⟨?_, ?_, ?_, ?_⟩
  · intro hlen
    have key : (institutionFixture ids Option.none).get_institution_id
        = .error (.valueError ("Multiple institutions are not supported, got: "
            ++ (PyVal.list (ids.map PyVal.str)).pyStr)) := by
      simp [CMIP6GlobalAttributes.get_institution_id, institutionFixture, dictIndex,
        dictGet, pyIndex, pyIndexS, pyLen, pyContains, except_bind_ok, except_pure,
        List.lookup, hlen, PyVal.truthy]
    exact ⟨_, key⟩
  · intro o hlen ho hone
    have hany : ids.any (fun x => x == o) = true := by
      simp only [List.any_eq_true, beq_iff_eq]
      exact ⟨o, ho, rfl⟩
    simp [CMIP6GlobalAttributes.get_institution_id, institutionFixture, dictIndex,
      dictGet, pyIndex, pyIndexS, pyLen, pyContains, except_bind_ok, except_pure,
      List.lookup, hlen, PyVal.truthy, hone, pyInList_map_str, hany]
  · intro o hlen ho hone
    have hany : ids.any (fun x => x == o) = false := by
      simp only [List.any_eq_false, beq_iff_eq]
      intro x hx hxo
      exact ho (hxo ▸ hx)
    have key : (institutionFixture ids (some o)).get_institution_id
        = .error (.valueError ("Institution ID " ++ (PyVal.str o).pyStr
            ++ " is not valid. Allowed values: "
            ++ (PyVal.list (ids.map PyVal.str)).pyStr)) := by
      simp [CMIP6GlobalAttributes.get_institution_id, institutionFixture, dictIndex,
        dictGet, pyIndex, pyIndexS, pyLen, pyContains, except_bind_ok, except_pure,
        List.lookup, hlen, PyVal.truthy, hone, pyInList_map_str, hany]
    exact ⟨_, key⟩
  · intro x hids ov
    subst hids
    simp [CMIP6GlobalAttributes.get_institution_id, institutionFixture, dictIndex,
      dictGet, pyIndex, pyIndexS, pyLen, pyContains, except_bind_ok, except_pure,
      List.lookup, pyGetIndex]

/-! ## C10 -/

/-- Fixture for the nominal-resolution claim: a CV whose
`source_id → FIX-ESM → model_component → ocean` entry is the given dict,
and a rule that may carry its own `nominal_resolution`. -/
def nominalResFixture (cvmc : List (String × PyVal)) (userRes : Option PyVal) :
    CMIP6GlobalAttributes :=
  { drv := ⟨"ocean", "ocean"⟩,
    cv := [("source_id", .dict [("FIX-ESM",
      .dict [("model_component", .dict [("ocean", .dict cvmc)])])])],
    rule_dict := ("source_id", .str "FIX-ESM") ::
      ("model_component", .str "ocean") ::
      (match userRes with
       | some v => [("nominal_resolution", v)]
       | Option.none => []) }

/-- C10.  When the resolved CV `model_component` entry has neither
`native_nominal_resolution` nor the misspelled fallback
`native_ominal_resolution`, `CMIP6GlobalAttributes.get_nominal_resolution`
reads the local variable `nominal_resolution` before any assignment and
raises `UnboundLocalError`, regardless of any user-supplied resolution in
the rule. -/
theorem c10_nominal_resolution_unbound_local (cvmc : List (String × PyVal))
    (userRes : Option PyVal)
    (h1 : List.lookup "native_nominal_resolution" cvmc = Option.none)
    (h2 : List.lookup "native_ominal_resolution" cvmc = Option.none) :
    (nominalResFixture cvmc userRes).get_nominal_resolution
      = .error (.unboundLocalError "nominal_resolution") := by
  simp [CMIP6GlobalAttributes.get_nominal_resolution,
    CMIP6GlobalAttributes.get_realm, nominalResFixture, dictIndex, dictGet,
    pyIndex, pyIndexS, pyContains, pyKeyIn, except_bind_ok, except_pure,
    List.lookup, h1, h2, PyVal.isNone]

/-! ## C6 -/

/-- C6.  For every successful `convert` call — over an arbitrary pint
oracle, input array, unit strings and dimensionless alias — the `units`
attribute of the result is exactly the nominal target `to_unit`: even when
an alias drives the arithmetic, the alias is never the recorded unit. -/
theorem c6_units_attribute_forced {Q : Type} (ops : PintOps Q) (da : DataArray)
    (from_unit to_unit : String) (to_unit_dimensionless_mapping : Option String)
    (out : DataArray)
    (h : convert ops da from_unit to_unit to_unit_dimensionless_mapping = .ok out) :
    List.lookup "units" out.attrs = some to_unit := by
  unfold convert at h
  cases h1 : handle_chemicals ops (some from_unit) with
  | error e => rw [h1, except_bind_error] at h; simp at h
  | ok u1 =>
    rw [h1, except_bind_ok] at h
    cases h2 : handle_chemicals ops
        (some (effectiveTarget to_unit to_unit_dimensionless_mapping)) with
    | error e => rw [h2, except_bind_error] at h; simp at h
    | ok u2 =>
      rw [h2, except_bind_ok] at h
      cases h3 : convertCore ops da from_unit
          (effectiveTarget to_unit to_unit_dimensionless_mapping) with
      | error e => rw [h3, except_bind_error] at h; simp at h
      | ok d =>
        rw [h3, except_bind_ok] at h
        cases h4 : d.unitsAttr with
        | error e => rw [h4, except_bind_error] at h; simp at h
        | ok u =>
          rw [h4, except_bind_ok] at h
          by_cases hu : u = to_unit
          · rw [if_neg (by simp [hu])] at h
            cases h
            unfold DataArray.unitsAttr at h4
            cases hl : List.lookup "units" out.attrs with
            | none => rw [hl] at h4; cases h4
            | some w =>
              rw [hl] at h4
              cases h4
              rw [hu]
          · rw [if_pos hu] at h
            cases h
            simp [DataArray.assignUnits, List.lookup]

/-! ## Locator lemmas -/

lemma locateTier5_spec (l : Locator) (fs2 : FS) :
    (locateTier5 l fs2).downloadInvoked = true ∧ (locateTier5 l fs2).fs = fs2 := by
  unfold locateTier5
  split
  · split
    · exact ⟨rfl, rfl⟩
    · exact ⟨rfl, rfl⟩
  · exact ⟨rfl, rfl⟩

lemma locateTier4_spec (l : Locator) (fs2 : FS) :
    (locateTier4 l fs2).downloadInvoked = true ∧ (locateTier4 l fs2).fs = fs2 := by
  unfold locateTier4
  split
  · split
    · exact ⟨rfl, rfl⟩
    · exact locateTier5_spec l fs2
  · exact locateTier5_spec l fs2

lemma locateTier3_downloadInvoked (l : Locator) (fs : FS) :
    (locateTier3 l fs).downloadInvoked = true := by
  unfold locateTier3
  split
  · rfl
  · exact (locateTier4_spec l _).1

lemma locate_eq_locateFromCache (l : Locator) (fs : FS)
    (huser : ∀ up, l.user_path = some up → fsExists fs up = false) :
    locate l fs = locateFromCache l fs := by
  unfold locate
  split
  · rename_i up hup
    rw [huser up hup]
    simp
  · rfl

lemma fsLookup_fsInsert_ne (fs : FS) (p q : FsPath) (n : FsNode) (h : ¬ p = q) :
    fsLookup (fsInsert fs p n) q = fsLookup fs q := by
  simp only [fsLookup, fsInsert, List.lookup]
  rw [show (q == p) = false from beq_eq_false_iff_ne.mpr fun hq => h hq.symm]

lemma fsLookup_mkdir_foldl (p q : FsPath) (hlt : p.length < q.length) :
    ∀ (is : List Nat) (fs : FS),
      fsLookup (is.foldl (fun acc i =>
        if fsExists acc (p.take (i + 1)) then acc
        else fsInsert acc (p.take (i + 1)) (.dir [])) fs) q = fsLookup fs q := by
  intro is
  induction is with
  | nil => intro fs; rfl
  | cons i is ih =>
    intro fs
    rw [List.foldl_cons, ih]
    have hne : ¬ p.take (i + 1) = q := by
      intro hcontra
      have : (p.take (i + 1)).length ≤ p.length := by
        simp [List.length_take]
      rw [hcontra] at this
      omega
    by_cases hr : fsExists fs (p.take (i + 1)) = true
    · rw [if_pos hr]
    · rw [if_neg hr]
      exact fsLookup_fsInsert_ne fs _ q _ hne

lemma fsLookup_mkdirParents (fs : FS) (p q : FsPath) (hlt : p.length < q.length) :
    fsLookup (mkdirParents fs p) q = fsLookup fs q :=
  fsLookup_mkdir_foldl p q hlt (List.range p.length) fs

lemma cachePath_length_pos (l : Locator) : 0 < l.cachePath.length := by
  unfold Locator.cachePath
  cases l.version <;> cases l.cacheStyle <;> simp

/-! ## C1 -/

/-- C1.  When the user path is absent or does not exist and the computed
cache path exists and passes the class's validation, `locate` returns the
cache path (with `REPO_SUBDIR` appended when defined), leaves the
filesystem untouched and never reaches the remote tier; an existing but
empty cache directory instead fails validation (under either validation
override) and the locator proceeds to the remote-fetch tier. -/
theorem c1_cache_hit_short_circuits (l : Locator) (fs : FS)
    (huser : ∀ up, l.user_path = some up → fsExists fs up = false) :
    (fsExists fs l.cachePath = true →
      runValidate l.validateKind fs l.cachePath = .ok true →
      locate l fs = ⟨.ok (some (l.withRepoSubdir l.cachePath)), fs, false⟩)
    ∧ (fsLookup fs l.cachePath = some (.dir []) →
      (locate l fs).downloadInvoked = true) := by
  rw [locate_eq_locateFromCache l fs huser]
  constructor
  · intro hex hval
    unfold locateFromCache
    rw [if_pos hex, hval]
  · intro hlk
    have hex : fsExists fs l.cachePath = true := by
      simp [fsExists, hlk]
    have hval : runValidate l.validateKind fs l.cachePath = .ok false := by
      cases hv : l.validateKind with
      | base => simp [runValidate, validateCacheBase, hlk]
      | metadataJson =>
        simp [runValidate, validateCacheMetadata, validateCacheBase, hlk]
    unfold locateFromCache
    rw [if_pos hex, hval]
    exact locateTier3_downloadInvoked l fs

/-- A cache-hit witness configuration: a CV-style locator with a populated
cache entry. -/
def cvLocatorWitness : Locator :=
  { resource_name := "cmip6-cvs", version := some "6.2.58.64",
    user_path := Option.none,
    cache_base := ["home", ".cache", "pycmor"],
    cacheStyle := .plain,
    repo_subdir := Option.none,
    validateKind := .base,
    downloadKind := .git true ["CMIP6_experiment_id.json"],
    packaged_path := Option.none,
    vendored_candidate := Option.none }

/-- A filesystem with a valid (non-empty) cache entry for
`cvLocatorWitness`. -/
def validCacheFS : FS :=
  [(cvLocatorWitness.cachePath, .dir ["CMIP6_experiment_id.json"])]

/-- A filesystem with an empty directory in the cache slot of
`cvLocatorWitness`. -/
def staleCacheFS : FS :=
  [(cvLocatorWitness.cachePath, .dir [])]

/-- Witness for C1: on a concrete locator, a valid cache entry is returned
as-is with no download, and an empty cache directory sends the locator to
the remote tier. -/
theorem c1_witness :
    locate cvLocatorWitness validCacheFS
      = ⟨.ok (some (cvLocatorWitness.withRepoSubdir cvLocatorWitness.cachePath)),
         validCacheFS, false⟩
    ∧ (locate cvLocatorWitness staleCacheFS).downloadInvoked = true := by
  constructor
  · exact (c1_cache_hit_short_circuits cvLocatorWitness validCacheFS
      (fun up hup => by simp [cvLocatorWitness] at hup)).1 rfl rfl
  · exact (c1_cache_hit_short_circuits cvLocatorWitness staleCacheFS
      (fun up hup => by simp [cvLocatorWitness] at hup)).2 rfl

/-! ## C2 -/

/-- The `CMIP7MetadataLocator` configuration at the C2 failing input: no
user path, no packaged or vendored fallback, and a generation command that
fails (its oracle outcome is `none`). -/
def metadataLocatorDemo : Locator :=
  { resource_name := "cmip7_metadata", version := some "v1.2.2.2",
    user_path := Option.none,
    cache_base := ["home", ".cache", "pycmor"],
    cacheStyle := .metadataFile,
    repo_subdir := Option.none,
    validateKind := .metadataJson,
    downloadKind := .generate Option.none,
    packaged_path := Option.none,
    vendored_candidate := Option.none }

/-- A cached `metadata.json` whose content is the JSON document `5`
(1 byte, decodes to a number). -/
def corruptMetadataFS : FS :=
  [(metadataLocatorDemo.cachePath, .file 1 (some (.num 5)))]

/-- C2 failing input.  With the user path absent, no packaged or vendored
copy and the generation command failing, the claim says `locate` must not
raise and must return an explicit absence; but on a cached metadata file
whose JSON document is the number `5` (an existing yet invalid cache
entry), `_validate_cache` evaluates `"Compound Name" in data` on an `int`,
which raises `TypeError` — not caught by the
`except (json.JSONDecodeError, KeyError)` handler — so `locate` raises
instead of falling through the remaining tiers. -/
theorem c2_locate_raises_on_numeric_metadata :
    (locate metadataLocatorDemo corruptMetadataFS).result
      = .error (.typeError "argument of type is not iterable") := rfl

/-! ## C3 -/

/-- C3 counterexample.  `cvLocatorWitness` carries a stale empty cache
directory and a *succeeding* clone oracle; the claim says the invalidated
entry is deleted and regenerated, with only freshly populated content in
the slot after the remote-fetch tier.  In fact nothing is ever deleted:
`shutil.copytree` refuses the existing destination, so the download
reports failure, the locator ends with no source found, and the stale
empty directory is still in the cache slot afterwards. -/
theorem c3_counterexample_stale_entry_not_regenerated :
    (locate cvLocatorWitness staleCacheFS).result = .ok Option.none
    ∧ fsLookup (locate cvLocatorWitness staleCacheFS).fs cvLocatorWitness.cachePath
        = some (.dir [])
    ∧ (locate cvLocatorWitness staleCacheFS).downloadInvoked = true := ⟨rfl, rfl, rfl⟩

/-- C3 amended.  For any CV/table-style locator (git download) with an
unusable user path, when the cache entry exists but fails validation the
locator never deletes it: the remote fetch is attempted into the occupied
slot and fails (`copytree` refuses an existing destination, clone success
or not), the stale entry survives the whole call unchanged, and the
locator falls through to the packaged/vendored tiers. -/
theorem c3_amended_stale_entry_persists (l : Locator) (fs : FS)
    (cloneOk : Bool) (entries : List String)
    (hdl : l.downloadKind = .git cloneOk entries)
    (huser : ∀ up, l.user_path = some up → fsExists fs up = false)
    (hex : fsExists fs l.cachePath = true)
    (hval : runValidate l.validateKind fs l.cachePath = .ok false) :
    fsLookup (locate l fs).fs l.cachePath = fsLookup fs l.cachePath
    ∧ (locate l fs).downloadInvoked = true
    ∧ (runDownload l.downloadKind (mkdirParents fs l.cachePath.dropLast)
        l.cachePath).1 = false := by
  have hlen : l.cachePath.dropLast.length < l.cachePath.length := by
    have := cachePath_length_pos l
    simp [List.length_dropLast]
    omega
  have hmk : fsLookup (mkdirParents fs l.cachePath.dropLast) l.cachePath
      = fsLookup fs l.cachePath :=
    fsLookup_mkdirParents fs _ _ hlen
  have hex1 : fsExists (mkdirParents fs l.cachePath.dropLast) l.cachePath = true := by
    simpa [fsExists, hmk] using hex
  have hdown : runDownload l.downloadKind (mkdirParents fs l.cachePath.dropLast)
      l.cachePath = (false, mkdirParents fs l.cachePath.dropLast) := by
    rw [hdl]
    unfold runDownload
    cases cloneOk
    · rfl
    · simp [hex1]
  rw [locate_eq_locateFromCache l fs huser]
  unfold locateFromCache
  rw [if_pos hex, hval]
  unfold locateTier3
  rw [hdown]
  rw [if_neg (fun hcontra => Bool.false_ne_true hcontra)]
  refine ⟨?_, (locateTier4_spec l _).1, rfl⟩
  rw [(locateTier4_spec l _).2, hmk]

/-- Witness for the amended C3 on the concrete stale-cache configuration. -/
theorem c3_amended_witness :
    fsLookup (locate cvLocatorWitness staleCacheFS).fs cvLocatorWitness.cachePath
      = fsLookup staleCacheFS cvLocatorWitness.cachePath
    ∧ (locate cvLocatorWitness staleCacheFS).downloadInvoked = true
    ∧ (runDownload cvLocatorWitness.downloadKind
        (mkdirParents staleCacheFS cvLocatorWitness.cachePath.dropLast)
        cvLocatorWitness.cachePath).1 = false :=
  c3_amended_stale_entry_persists cvLocatorWitness staleCacheFS true
    ["CMIP6_experiment_id.json"] rfl
    (fun up hup => by simp [cvLocatorWitness] at hup) rfl rfl

/-! ## C8 -/

lemma pyStr_str (s : String) : (PyVal.str s).pyStr = s := rfl

lemma global_attributes_fold (g : CMIP7GlobalAttributes)
    (keys : List String) (vals : List PyVal)
    (hall : List.Forall₂ (fun k v => g.callGetter ("get_" ++ k) = .ok v) keys vals) :
    ∀ acc : List (PyVal × PyVal),
      ((keys.map PyVal.str).foldlM (fun acc key => do
          let v ← g.callGetter ("get_" ++ key.pyStr)
          pure (acc ++ [(key, v)])) acc)
        = .ok (acc ++ (keys.map PyVal.str).zip vals) := by
  induction hall with
  | nil => intro acc; simp [except_pure]
  | cons hkv htl ih =>
    intro acc
    rename_i k v ks vs
    simp only [List.map_cons, List.foldlM_cons, pyStr_str, hkv, except_bind_ok,
      pure_bind, List.zip_cons_cons]
    rw [ih]
    simp

/-- The rule dict of a well-formed CMIP7 rule: the required keys (plus
`activity_id`, needed because the CMIP7 CV carries no experiment entries
yet), all string-valued. -/
def cmip7RuleFixture (vl src inst exp grid cdate cvar act : String) :
    List (String × PyVal) :=
  [("variant_label", .str vl), ("source_id", .str src),
   ("institution_id", .str inst), ("experiment_id", .str exp),
   ("grid_label", .str grid), ("creation_date", .str cdate),
   ("cmor_variable", .str cvar), ("activity_id", .str act)]

/-- The variable-metadata dict of a CMIP7 rule fixture. -/
def cmip7DrvFixture (realm freq tbl : String) : List (String × PyVal) :=
  [("modeling_realm", .str realm), ("frequency", .str freq),
   ("cmip6_table", .str tbl)]

/-- A `CMIP7GlobalAttributes` instance over the rule fixture, an empty CV
(the CMIP7 CVs are not yet populated) and a fixed uuid oracle. -/
def cmip7GAFixture (vl src inst exp grid cdate cvar act realm freq tbl uuid : String) :
    CMIP7GlobalAttributes :=
  { drv := cmip7DrvFixture realm freq tbl,
    cv := [],
    rule_dict := cmip7RuleFixture vl src inst exp grid cdate cvar act,
    uuid4 := uuid }

/-- The values produced for the 30 required CMIP7 attributes on the
fixture, in required-list order. -/
def cmip7ExpectedVals (vl src inst exp grid cdate cvar act realm freq tbl uuid : String)
    (comps : VariantComponents) : List PyVal :=
  [.str "CF-1.10 CMIP-7.0",
   .str act,
   .str cdate,
   .str "1.0.0",
   .str exp,
   .str exp,
   .str (toString comps.forcing_index),
   .str freq,
   .str ("https://furtherinfo.es-doc.org/" ++ "CMIP7" ++ "." ++ inst ++ "." ++ src
     ++ "." ++ exp ++ "." ++ "none" ++ "." ++ vl),
   .str "none",
   .str grid,
   .str (toString comps.initialization_index),
   .str inst,
   .str inst,
   .str (CMIP7GlobalAttributes.cmip7DefaultLicense inst),
   .str "CMIP7",
   .str "none",
   .str (toString comps.physics_index),
   .str "model-output",
   .str (toString comps.realization_index),
   .str realm,
   .str (src ++ " " ++ realm),
   .str src,
   .str "AOGCM",
   .str "none",
   .str "none",
   .str tbl,
   .str ("hdl:21.14100/" ++ uuid),
   .str cvar,
   .str vl]

/-- C8.  For a valid CMIP7 rule dict — string values for the required keys,
a variant label matching the regex, a non-empty activity id — together
with dict-shaped variable metadata and the (empty) CMIP7 CV,
`global_attributes()` succeeds and returns the flat mapping whose keys are
exactly the required global attribute names and whose values are all
string instances. -/
theorem c8_global_attributes_all_strings
    (vl src inst exp grid cdate cvar act realm freq tbl uuid : String)
    (comps : VariantComponents)
    (hcomps : variantLabelComponents vl = .ok comps)
    (hact : act ≠ "") :
    ∃ attrs,
      (cmip7GAFixture vl src inst exp grid cdate cvar act realm freq tbl
        uuid).global_attributes = .ok attrs
      ∧ attrs.map Prod.fst = CMIP7GlobalAttributes.cmip7FallbackRequired.map PyVal.str
      ∧ attrs.all (fun kv => (kv.2).isStr) = true := by
  have hacttruthy : PyVal.truthy (.str act) = true := by
    simp [PyVal.truthy, hact]
  have hparse : pyVariantComponents (PyVal.str vl) = .ok comps := hcomps
  refine ⟨(CMIP7GlobalAttributes.cmip7FallbackRequired.map PyVal.str).zip
    (cmip7ExpectedVals vl src inst exp grid cdate cvar act realm freq tbl uuid comps),
    ?_, by rfl, by rfl⟩
  set g := cmip7GAFixture vl src inst exp grid cdate cvar act realm freq tbl uuid
    with hg
  have hActivity : g.callGetter ("get_" ++ "activity_id") = .ok (.str act) := by
    show g.get_activity_id = .ok (.str act)
    simp [CMIP7GlobalAttributes.get_activity_id, CMIP7GlobalAttributes.get_experiment_id,
      hg, cmip7GAFixture, cmip7RuleFixture, cmip7DrvFixture, dictIndex, dictGet,
      List.lookup, except_bind_ok, except_pure, hacttruthy]
  have hForcing : g.callGetter ("get_" ++ "forcing_index")
      = .ok (.str (toString comps.forcing_index)) := by
    show g.get_forcing_index = _
    simp [CMIP7GlobalAttributes.get_forcing_index, CMIP7GlobalAttributes.get_variant_label,
      hg, cmip7GAFixture, cmip7RuleFixture, dictIndex, List.lookup, except_bind_ok,
      except_pure, hparse]
  have hInit : g.callGetter ("get_" ++ "initialization_index")
      = .ok (.str (toString comps.initialization_index)) := by
    show g.get_initialization_index = _
    simp [CMIP7GlobalAttributes.get_initialization_index,
      CMIP7GlobalAttributes.get_variant_label, hg, cmip7GAFixture, cmip7RuleFixture,
      dictIndex, List.lookup, except_bind_ok, except_pure, hparse]
  have hPhys : g.callGetter ("get_" ++ "physics_index")
      = .ok (.str (toString comps.physics_index)) := by
    show g.get_physics_index = _
    simp [CMIP7GlobalAttributes.get_physics_index, CMIP7GlobalAttributes.get_variant_label,
      hg, cmip7GAFixture, cmip7RuleFixture, dictIndex, List.lookup, except_bind_ok,
      except_pure, hparse]
  have hReal : g.callGetter ("get_" ++ "realization_index")
      = .ok (.str (toString comps.realization_index)) := by
    show g.get_realization_index = _
    simp [CMIP7GlobalAttributes.get_realization_index,
      CMIP7GlobalAttributes.get_variant_label, hg, cmip7GAFixture, cmip7RuleFixture,
      dictIndex, List.lookup, except_bind_ok, except_pure, hparse]
  have hSubExp : g.callGetter ("get_" ++ "sub_experiment") = .ok (.str "none") := by
    show g.get_sub_experiment = _
    simp [CMIP7GlobalAttributes.get_sub_experiment,
      CMIP7GlobalAttributes.get_sub_experiment_id,
      CMIP7GlobalAttributes.get_experiment_id, hg, cmip7GAFixture, cmip7RuleFixture,
      dictIndex, dictGet, List.lookup, except_bind_ok, except_pure, pyEq]
  have hforall : List.Forall₂
      (fun k v => g.callGetter ("get_" ++ k) = .ok v)
      CMIP7GlobalAttributes.cmip7FallbackRequired
      (cmip7ExpectedVals vl src inst exp grid cdate cvar act realm freq tbl
        uuid comps) := by
    unfold CMIP7GlobalAttributes.cmip7FallbackRequired cmip7ExpectedVals
    refine .cons (by rfl) (.cons hActivity (.cons (by rfl) (.cons (by rfl)
      (.cons (by rfl) (.cons (by rfl) (.cons hForcing (.cons (by rfl)
      (.cons (by rfl) (.cons (by rfl) (.cons (by rfl) (.cons hInit
      (.cons (by rfl) (.cons (by rfl) (.cons (by rfl) (.cons (by rfl)
      (.cons (by rfl) (.cons hPhys (.cons (by rfl) (.cons hReal
      (.cons (by rfl) (.cons (by rfl) (.cons (by rfl) (.cons (by rfl)
      (.cons hSubExp (.cons (by rfl) (.cons (by rfl) (.cons (by rfl)
      (.cons (by rfl) (.cons (by rfl) .nil)))))))))))))))))))))))))))))
  have hfold := global_attributes_fold g CMIP7GlobalAttributes.cmip7FallbackRequired
    (cmip7ExpectedVals vl src inst exp grid cdate cvar act realm freq tbl uuid comps)
    hforall []
  unfold CMIP7GlobalAttributes.global_attributes
  rw [show g.required_global_attributes
      = PyVal.list (CMIP7GlobalAttributes.cmip7FallbackRequired.map PyVal.str) from rfl]
  rw [show pyIter (PyVal.list (CMIP7GlobalAttributes.cmip7FallbackRequired.map PyVal.str))
      = Except.ok (CMIP7GlobalAttributes.cmip7FallbackRequired.map PyVal.str) from rfl]
  rw [except_bind_ok, hfold]
  simp

/-! ## Witnesses -/

/-- Witness for C5 at the concrete label `r1i2p3f4`. -/
theorem c5_witness :
    variantLabelComponents ⟨'r' :: (['1'] ++ 'i' :: (['2'] ++ 'p' :: (['3'] ++ 'f' :: ['4'])))⟩
      = .ok ⟨digitsVal ['1'], digitsVal ['2'], digitsVal ['3'], digitsVal ['4']⟩ :=
  (c5_variant_label_decomposition.1 ['1'] ['2'] ['3'] ['4']
    (by decide) (by decide) (by decide) (by decide)
    (by decide) (by decide) (by decide) (by decide)).1

/-- Witness for C7 at a concrete 5-part compound name. -/
theorem c7_witness :
    ∃ p : CompoundName,
      parse_compound_name "atmos.tas.tavg-h2m-hxy-u.mon.GLB" = .ok p ∧
      build_compound_name p.realm p.var p.branding p.frequency p.region
        = "atmos.tas.tavg-h2m-hxy-u.mon.GLB" :=
  c7_compound_name_roundtrip.1 "atmos.tas.tavg-h2m-hxy-u.mon.GLB"
    (by decide) (by decide)

/-- Witness for C9 on the concrete coordinate array `[1, 2, 4]`. -/
theorem c9_witness :
    ((calculate_bounds_1d [1, 2, 4]).getD 0 (0, 0)).2
      = ((calculate_bounds_1d [1, 2, 4]).getD 1 (0, 0)).1 :=
  c9_bounds_continuity [1, 2, 4] (by decide) (Or.inl (by norm_num [List.chain'_cons])) 0
    (by decide)

/-- Witness for C4 on concrete candidate lists. -/
theorem c4_witness :
    (∃ msg, (institutionFixture ["AWI", "MPI"] Option.none).get_institution_id
      = .error (.valueError msg))
    ∧ (institutionFixture ["AWI", "MPI"] (some "MPI")).get_institution_id
        = .ok (.str "MPI")
    ∧ (∃ msg, (institutionFixture ["AWI", "MPI"] (some "XYZ")).get_institution_id
      = .error (.valueError msg))
    ∧ (institutionFixture ["AWI"] (some "MPI")).get_institution_id = .ok (.str "AWI") :=
  ⟨(c4_institution_ambiguity ["AWI", "MPI"]).1 (by decide),
   (c4_institution_ambiguity ["AWI", "MPI"]).2.1 "MPI" (by decide) (by decide) (by decide),
   (c4_institution_ambiguity ["AWI", "MPI"]).2.2.1 "XYZ" (by decide) (by decide) (by decide),
   (c4_institution_ambiguity ["AWI"]).2.2.2 "AWI" rfl (some "MPI")⟩

/-- Witness for C10 on a concrete model-component dict lacking both
resolution keys, with a user-supplied resolution in the rule. -/
theorem c10_witness :
    (nominalResFixture [("description", .str "none")]
        (some (.str "25 km"))).get_nominal_resolution
      = .error (.unboundLocalError "nominal_resolution") :=
  c10_nominal_resolution_unbound_local [("description", PyVal.str "none")]
    (some (.str "25 km")) rfl rfl

/-- A concrete pint oracle for the C6 witness: conversions succeed and the
dequantified array carries whatever canonical unit pint chose
(`"dimensionless"` here). -/
def demoPintOps : PintOps DataArray :=
  { quantify := fun da _ => .ok da,
    convert_to := fun q _ => .ok q,
    dequantify := fun q => q.assignUnits "dimensionless",
    assignUnitsQ := fun q u => q.assignUnits u,
    scale := fun q _ => q,
    divide := fun q _ => q,
    uregParse := fun u => .ok (1, u),
    quantityUnits := fun u => .ok u,
    chemKnows := fun _ => true,
    elementMW := fun _ => Option.none }

/-- A concrete dimensionless data array for the C6 witness. -/
def demoDataArray : DataArray :=
  { values := [1/2, 1], attrs := [("units", "1")] }

/-- Witness for C6: converting `"1"` to `"1"` through the alias `"%"`
succeeds and records `"1"`, not the alias, as the units attribute. -/
theorem c6_witness :
    ∃ out, convert demoPintOps demoDataArray "1" "1" (some "%") = .ok out
      ∧ List.lookup "units" out.attrs = some "1" :=
  ⟨_, rfl, c6_units_attribute_forced demoPintOps demoDataArray "1" "1" (some "%") _ rfl⟩

/-- Witness for C8 on a fully concrete valid CMIP7 rule. -/
theorem c8_witness :
    ∃ attrs, (cmip7GAFixture "r1i1p1f1" "AWI-CM-1-1-MR" "AWI" "historical" "gn"
        "2024-01-01T00:00:00Z" "tas" "CMIP" "atmos" "mon" "Amon"
        "00000000-0000-0000-0000-000000000000").global_attributes = .ok attrs
      ∧ attrs.map Prod.fst = CMIP7GlobalAttributes.cmip7FallbackRequired.map PyVal.str
      ∧ attrs.all (fun kv => (kv.2).isStr) = true :=
  c8_global_attributes_all_strings "r1i1p1f1" "AWI-CM-1-1-MR" "AWI" "historical" "gn"
    "2024-01-01T00:00:00Z" "tas" "CMIP" "atmos" "mon" "Amon"
    "00000000-0000-0000-0000-000000000000" ⟨1, 1, 1, 1⟩ rfl (by decide)

end Pycmor
